import Mathlib

set_option maxHeartbeats 1000000

/-
Verification of the moltagent extension (control plane, approvals, fleet,
bridge, cloud-init, dashboard API) against its specification.

Shallow embedding conventions:
- JavaScript `Map` objects keyed by strings are modelled either as functions
  `String → Option α` (when only get/set/delete semantics matter) or as lists
  in insertion order (when iteration order matters).
- Wall-clock readings (`Date.now()`, `new Date().toISOString()`) are explicit
  parameters: `Int` for millisecond instants, `String` for ISO timestamps.
- JavaScript runtime values held in `Record<string, unknown>` fields are
  modelled by `JsVal` together with JS truthiness and `Number(x)` coercion.
-/

-- ═══════════════════════════ JS value model ═══════════════════════════

/-- Scalar JavaScript runtime values, as stored in `Record<string, unknown>`
fields of the source (action details, provider metadata, manifest metadata).
`nan` is JavaScript's NaN, kept apart from finite numbers. -/
inductive JsVal
  | num (q : ℚ)
  | nan
  | str (s : String)
  | boolV (b : Bool)
  | nullV
  | undefV
deriving DecidableEq, Repr

/-- JavaScript truthiness of a value (`if (x)`). -/
def jsTruthy : JsVal → Bool
  | .num q => q ≠ 0
  | .nan => false
  | .str s => s ≠ ""
  | .boolV b => b
  | .nullV => false
  | .undefV => false

/-- Accumulate the value of a list of decimal digit characters; `none` when a
non-digit appears. -/
def decValue (cs : List Char) : Option Nat :=
  cs.foldl
    (fun acc c =>
      match acc with
      | none => none
      | some n => if c.isDigit then some (n * 10 + (c.toNat - 48)) else none)
    (some 0)

/-- Whitespace as stripped by JS string-to-number conversion. -/
def isWsChar (c : Char) : Bool :=
  c = ' ' ∨ c = '\t' ∨ c = '\n' ∨ c = '\r' ∨ c = '\x0c' ∨ c = '\x0b'

/-- Strip leading and trailing whitespace from a character list. -/
def trimChars (cs : List Char) : List Char :=
  ((cs.dropWhile isWsChar).reverse.dropWhile isWsChar).reverse

/-- JavaScript `Number(s)` on a string: optional sign, decimal digits with an
optional fraction part; the empty (trimmed) string is 0; anything else is NaN
(`none`). Exponent and hex forms are outside the model. -/
def jsStringToNumber (s : String) : Option ℚ :=
  let cs := trimChars s.data
  if cs = [] then some 0
  else
    let signed : ℚ × List Char :=
      match cs with
      | '-' :: r => (-1, r)
      | '+' :: r => (1, r)
      | r => (1, r)
    let sign := signed.1
    match signed.2.span (fun c => c.isDigit) with
    | (intPart, []) =>
      if intPart = [] then none
      else (decValue intPart).map (fun n => sign * (n : ℚ))
    | (intPart, '.' :: fracCs) =>
      if fracCs.all (fun c => c.isDigit) ∧ (intPart ≠ [] ∨ fracCs ≠ []) then
        match decValue intPart, decValue fracCs with
        | some i, some f =>
          some (sign * ((i : ℚ) + (f : ℚ) / ((10 : ℚ) ^ fracCs.length)))
        | _, _ => none
      else none
    | _ => none

/-- JavaScript `Number(x)` coercion; `none` is NaN. -/
def jsToNumber : JsVal → Option ℚ
  | .num q => some q
  | .nan => none
  | .str s => jsStringToNumber s
  | .boolV b => some (if b then 1 else 0)
  | .nullV => some 0
  | .undefV => none

/-- When `pat` is a leading segment of `s`, the remainder of `s` after it. -/
def dropLead : List Char → List Char → Option (List Char)
  | [], s => some s
  | _ :: _, [] => none
  | p :: ps, c :: cs => if c = p then dropLead ps cs else none

/-- Remove the first occurrence of `pat` from a character list (no-op when
`pat` does not occur). -/
def removeFirstOcc (pat : List Char) : List Char → List Char
  | [] => (dropLead pat []).getD []
  | c :: cs =>
    match dropLead pat (c :: cs) with
    | some rest => rest
    | none => c :: removeFirstOcc pat cs

/-- JavaScript `s.replace(pat, "")` with a string pattern: removes the first
occurrence of `pat` from `s` (no-op when `pat` does not occur). -/
def replaceFirstDrop (s pat : String) : String :=
  String.mk (removeFirstOcc pat.data s.data)

-- ═══════════════════ Control plane admission (C1) ═══════════════════
-- Source: src/extensions/moltagent/src/control-plane.ts, ControlPlaneServer

/-- Outcome of the HTTP-upgrade admission check in `ControlPlaneServer.attach`. -/
inductive UpgradeDecision
  | reject401
  | reject400
  | accept (agentId : String)
deriving DecidableEq, Repr

/-- Token presented by an upgrade request in `attach`: the `token` query
parameter when present, else the `Authorization` header with the first
occurrence of `"Bearer "` removed (`authorization?.replace("Bearer ", "")`). -/
def presentedToken (queryToken headerAuth : Option String) : Option String :=
  match queryToken with
  | some t => some t
  | none => headerAuth.map (fun h => replaceFirstDrop h "Bearer ")

/-- Admission decision of `ControlPlaneServer.attach` (lines 57-81): 401 when
the presented token differs from the configured one, else 400 when `agentId`
is absent or empty (falsy), else the socket is upgraded and handed to
`handleConnection`. -/
def attachDecision (authToken : String)
    (queryToken headerAuth queryAgentId : Option String) : UpgradeDecision :=
  let token := presentedToken queryToken headerAuth
  if token ≠ some authToken then .reject401
  else
    match queryAgentId with
    | none => .reject400
    | some a => if a = "" then .reject400 else .accept a

/-- Outcome of the connection check in `ControlPlaneServer.startStandalone`. -/
inductive StandaloneDecision
  | close4001
  | accept (agentId : String)
deriving DecidableEq, Repr

/-- Admission decision of `ControlPlaneServer.startStandalone` (lines 90-101):
only the `token` and `agentId` query parameters are read (defaulted to "");
the request headers, though available on `req`, are never consulted. A wrong
token or empty agent id closes the accepted WebSocket with code 4001
"Unauthorized". -/
def standaloneDecision (authToken : String)
    ( _headerAuth : Option String)
    (queryToken queryAgentId : Option String) : StandaloneDecision :=
  let agentId := queryAgentId.getD ""
  let token := queryToken.getD ""
  if token ≠ authToken ∨ agentId = "" then .close4001
  else .accept agentId

-- ═══════════════════ Control plane sessions (C2) ═══════════════════

/-- Fleet connection status. -/
inductive Conn
  | online
  | offline
  | unknown
deriving DecidableEq, Repr

/-- State of the control-plane server relevant to session tracking:
the `agents` map (agent id → connected socket, modelled by socket ids),
the list of close calls issued to sockets, and the `connection` field of the
fleet records (`none` = no fleet record for that id). -/
structure CPState where
  agents : String → Option Nat
  closes : List (Nat × Nat × String)
  fleetConn : String → Option Conn

/-- `FleetManager.updateAgentConnection`: sets the connection field when a
record exists, does nothing otherwise. -/
def updateAgentConnection (f : String → Option Conn) (agentId : String)
    (c : Conn) : String → Option Conn :=
  fun id => if id = agentId then (f agentId).map (fun _ => c) else f id

/-- `ControlPlaneServer.handleConnection` (lines 105-131): when a session for
`agentId` exists, its socket is closed with code 4000 "Replaced by new
connection"; the new socket is indexed and the fleet record marked online. -/
def handleConnection (s : CPState) (agentId : String) (wsId : Nat) : CPState :=
  let closes' :=
    match s.agents agentId with
    | some old => s.closes ++ [(old, 4000, "Replaced by new connection")]
    | none => s.closes
  { agents := fun id => if id = agentId then some wsId else s.agents id
    closes := closes'
    fleetConn := updateAgentConnection s.fleetConn agentId .online }

/-- The `close` handler registered by `handleConnection` (lines 142-148) for
the session `(agentId, wsId)`: evicts the map entry and marks the fleet record
offline only when the closing socket is the currently indexed one. -/
def closeEvent (s : CPState) (agentId : String) (wsId : Nat) : CPState :=
  if s.agents agentId = some wsId then
    { agents := fun id => if id = agentId then none else s.agents id
      closes := s.closes
      fleetConn := updateAgentConnection s.fleetConn agentId .offline }
  else s

-- ═══════════════════ Approval manager (C3, C4) ═══════════════════
-- Source: src/extensions/moltagent/src/control-plane.ts (approvals part),
-- class ApprovalManager

/-- Lifecycle state of an approval. -/
inductive AState
  | pending
  | approved
  | denied
  | expired
deriving DecidableEq, Repr

/-- A `PendingApproval` record. `createdAt`/`expiresAt`/`respondedAt` are
modelled as millisecond instants (the code stores ISO strings and compares
`new Date(expiresAt).getTime()` against `Date.now()`). -/
structure Approval where
  id : String
  agentId : String
  category : String
  description : String
  amount : Option ℚ
  currency : Option String
  createdAt : Int
  expiresAt : Int
  state : AState
  respondedBy : Option String
  reason : Option String
  respondedAt : Option Int
deriving DecidableEq, Repr

/-- The request payload of `addRequest`. -/
structure ApprovalReq where
  id : String
  category : String
  description : String
  amount : Option ℚ
  currency : Option String
  expiresAt : Int
deriving DecidableEq, Repr

/-- ApprovalManager state: the queue is the JS `Map` keyed by `Approval.id`
in insertion order, `history` is newest-first, and `resolvedEvents` records
the `onResolved` callback invocations in order. -/
structure AMState where
  queue : List Approval
  history : List Approval
  resolvedEvents : List Approval
deriving DecidableEq, Repr

/-- `ApprovalManager.maxHistory`. -/
def maxHistory : Nat := 1000

/-- `ApprovalManager.addToHistory`: unshift, then truncate to `maxHistory`. -/
def addToHistory (h : List Approval) (a : Approval) : List Approval :=
  (a :: h).take maxHistory

/-- `Map.set` keyed by approval id: replace in place when the key exists,
append otherwise. -/
def qSet (q : List Approval) (a : Approval) : List Approval :=
  if q.any (fun b => b.id = a.id) then
    q.map (fun b => if b.id = a.id then a else b)
  else q ++ [a]

/-- `ApprovalManager.addRequest`: stores a fresh pending approval under the
request id and fires `onNewApproval` (not modelled); returns the approval. -/
def addRequest (s : AMState) (agentId : String) (r : ApprovalReq) (now : Int) :
    Approval × AMState :=
  let a : Approval :=
    { id := r.id
      agentId := agentId
      category := r.category
      description := r.description
      amount := r.amount
      currency := r.currency
      createdAt := now
      expiresAt := r.expiresAt
      state := .pending
      respondedBy := none
      reason := none
      respondedAt := none }
  (a, { s with queue := qSet s.queue a })

/-- The mutated approval object produced inside `resolve`. -/
def resolvedRecord (a : Approval) (approved : Bool) (respondedBy : String)
    (reason : Option String) (now : Int) : Approval :=
  { a with
    state := if approved then .approved else .denied
    respondedBy := some respondedBy
    reason := reason
    respondedAt := some now }

/-- `ApprovalManager.resolve`: `none` unless the id is queued in state
pending; otherwise transition to approved/denied, stamp responder and
response time, remove from the queue, unshift onto history, fire
`onResolved`, and return the resolved record. -/
def resolve (s : AMState) (requestId : String) (approved : Bool)
    (respondedBy : String) (reason : Option String) (now : Int) :
    Option Approval × AMState :=
  match s.queue.find? (fun a => a.id = requestId) with
  | none => (none, s)
  | some a =>
    if a.state ≠ .pending then (none, s)
    else
      (some (resolvedRecord a approved respondedBy reason now),
        { queue := s.queue.filter (fun b => b.id ≠ requestId)
          history := addToHistory s.history
            (resolvedRecord a approved respondedBy reason now)
          resolvedEvents := s.resolvedEvents
            ++ [resolvedRecord a approved respondedBy reason now] })

/-- One iteration of the `expireStale` loop body for the iterated entry `a`:
when `a` is pending and its `expiresAt` instant lies strictly before `now`,
mark it expired, delete its id from the queue, push it to history and fire
`onResolved`. -/
def expireStep (now : Int) (s : AMState) (a : Approval) : AMState :=
  if a.state = .pending ∧ a.expiresAt < now then
    { queue := s.queue.filter (fun b => b.id ≠ a.id)
      history := addToHistory s.history { a with state := AState.expired }
      resolvedEvents := s.resolvedEvents ++ [{ a with state := AState.expired }] }
  else s

/-- `ApprovalManager.expireStale`: iterate over the queue snapshot, expiring
every pending entry whose `expiresAt` has passed. -/
def expireStale (s : AMState) (now : Int) : AMState :=
  s.queue.foldl (expireStep now) s

-- ═══════════════════ Agent manifest (schema.ts) ═══════════════════
-- Source: src/unnamed/part_000 companion schema module (zod schemas);
-- numbers are modelled by ℚ (ints by Nat where the schema demands it).

/-- A repo entry of `capabilitiesSchema.repos`. -/
structure RepoSpec where
  url : String
  branch : String
  path : String
  setupCommand : Option String
deriving DecidableEq, Repr

/-- An inline custom tool of `agentConfigSchema.customTools`. -/
structure CustomTool where
  name : String
  description : String
  inputSchema : Option (List (String × JsVal))
deriving DecidableEq, Repr

/-- `agentIdentitySchema`. -/
structure AgentIdentity where
  id : String
  name : String
  ownerId : String
  description : Option String
  avatarUrl : Option String
  tags : List String
deriving DecidableEq, Repr

/-- `agentConfigSchema`. -/
structure AgentConfig where
  systemPrompt : String
  provider : String
  model : String
  temperature : ℚ
  maxTokens : Nat
  skills : List String
  customTools : List CustomTool
deriving DecidableEq, Repr

/-- `capabilitiesSchema`. -/
structure Capabilities where
  webBrowsing : Bool
  codeExecution : Bool
  terminalAccess : Bool
  fileSystem : Bool
  repos : List RepoSpec
  systemPackages : List String
  npmGlobals : List String
  pipPackages : List String
deriving DecidableEq, Repr

/-- `channelConfigSchema`. -/
structure ChannelConfig where
  type : String
  credentials : List (String × String)
  settings : List (String × JsVal)
  enabled : Bool
deriving DecidableEq, Repr

/-- `channelsSchema`. -/
structure Channels where
  channels : List ChannelConfig
deriving DecidableEq, Repr

/-- `resourcesSchema`. -/
structure Resources where
  serverType : String
  region : String
  diskSizeGb : Nat
  dockerImage : String
  provider : String
deriving DecidableEq, Repr

/-- `financialControlsSchema`. -/
structure FinancialControls where
  maxPerTransaction : ℚ
  maxPerDay : ℚ
  maxPerMonth : ℚ
  cryptoWalletEnabled : Bool
  walletAddress : String
  requireApprovalForAllSpend : Bool
deriving DecidableEq, Repr

/-- `controlPlaneSchema`. -/
structure ControlPlaneCfg where
  url : String
  token : String
  heartbeatIntervalSec : Nat
  statusReportIntervalSec : Nat
deriving DecidableEq, Repr

/-- `retentionSchema`. -/
structure RetentionCfg where
  actionLogRetentionDays : Nat
  sessionRecordingRetentionDays : Nat
  liveActionStream : Bool
  screenRecording : Bool
deriving DecidableEq, Repr

/-- A key result of `goalSchema.keyResults`. -/
structure KeyResult where
  description : String
  targetValue : Option ℚ
  currentValue : ℚ
  unit : String
deriving DecidableEq, Repr

/-- `goalSchema`. -/
structure AgentGoal where
  title : String
  description : String
  priority : Nat
  dueDate : Option String
  keyResults : List KeyResult
deriving DecidableEq, Repr

/-- `goalsSchema`. -/
structure Goals where
  goals : List AgentGoal
deriving DecidableEq, Repr

/-- An inline document of `knowledgeSchema.documents`. -/
structure KnowledgeDoc where
  title : String
  content : String
deriving DecidableEq, Repr

/-- `knowledgeSchema`. -/
structure Knowledge where
  urls : List String
  filePaths : List String
  documents : List KnowledgeDoc
deriving DecidableEq, Repr

/-- `moltAgentManifestSchema` (schemaVersion is the literal "1.0"). -/
structure MoltAgentManifest where
  schemaVersion : String
  identity : AgentIdentity
  agentConfig : AgentConfig
  capabilities : Capabilities
  channels : Channels
  resources : Resources
  financialControls : FinancialControls
  controlPlane : ControlPlaneCfg
  retention : RetentionCfg
  goals : Goals
  knowledge : Knowledge
  metadata : List (String × JsVal)
deriving DecidableEq, Repr

-- ═══════════════════ Fleet manager (C5, C6) ═══════════════════
-- Source: src/unnamed/part_001, class FleetManager

/-- `AgentStatusReport` from bridge.ts. -/
structure AgentStatusReport where
  state : String
  activeTask : Option String
  channelsConnected : List String
  uptimeSec : Nat
  memoryUsageMb : ℚ
  cpuPercent : ℚ
  actionsToday : Nat
  spendToday : ℚ
  goalProgress : List (String × ℚ)
deriving DecidableEq, Repr

/-- `VpsInstance` from provisioner.ts. -/
structure VpsInstance where
  id : String
  provider : String
  status : String
  ipv4 : String
  ipv6 : String
  serverType : String
  region : String
  createdAt : String
  agentId : String
  providerMeta : List (String × JsVal)
deriving DecidableEq, Repr

/-- `ActionLogEntry` from bridge.ts; `details` is an optional record of
arbitrary JS values. -/
structure ActionLogEntry where
  id : String
  timestamp : String
  category : String
  summary : String
  details : Option (List (String × JsVal))
  durationMs : Option ℚ
deriving DecidableEq, Repr

/-- `AgentRecord` from fleet.ts (`instance` is `inst` — `instance` is a Lean
keyword). -/
structure AgentRecord where
  manifest : MoltAgentManifest
  inst : Option VpsInstance
  connection : Conn
  remoteAddress : String
  lastStatus : Option AgentStatusReport
  deployedAt : String
  lastHeartbeat : Option String
  uptimeSec : Nat
  recentActions : List ActionLogEntry
  recentErrors : List (String × String)
  totalActions : Nat
  totalSpend : ℚ
deriving DecidableEq, Repr

/-- `MAX_RECENT_ACTIONS`. -/
def MAX_RECENT_ACTIONS : Nat := 200

/-- JavaScript `action.details?.amount`: `undefined` when `details` is absent
or lacks the key. -/
def lookupDetail (d : Option (List (String × JsVal))) (k : String) : JsVal :=
  match d with
  | none => .undefV
  | some kvs => ((kvs.find? (fun p => p.1 = k)).map (fun p => p.2)).getD .undefV

/-- The per-record effect of `FleetManager.recordAction` (lines 139-152):
unshift the action (truncating to `MAX_RECENT_ACTIONS`), increment
`totalActions`, and when the category is "spend" and `details?.amount` is
truthy add `Number(amount) || 0` to `totalSpend`. -/
def recordActionRecord (r : AgentRecord) (action : ActionLogEntry) :
    AgentRecord :=
  let recent := (action :: r.recentActions).take MAX_RECENT_ACTIONS
  let amount := lookupDetail action.details "amount"
  { r with
    recentActions := recent
    totalActions := r.totalActions + 1
    totalSpend :=
      if action.category = "spend" ∧ jsTruthy amount then
        r.totalSpend + (jsToNumber amount).getD 0
      else r.totalSpend }

/-- `FleetManager.recordAction`: no-op when the agent has no record. -/
def recordAction (m : String → Option AgentRecord) (agentId : String)
    (action : ActionLogEntry) : String → Option AgentRecord :=
  fun id =>
    if id = agentId then (m agentId).map (fun r => recordActionRecord r action)
    else m id

/-- `FleetManager.registerAgent` (lines 70-88): build a fresh record, keeping
`deployedAt`, both rings and both counters from an existing record under the
same id; index it under `manifest.identity.id`. -/
def registerAgent (m : String → Option AgentRecord)
    (manifest : MoltAgentManifest) (inst : Option VpsInstance) (now : String) :
    String → Option AgentRecord :=
  let existing := m manifest.identity.id
  let record : AgentRecord :=
    { manifest := manifest
      inst := inst
      connection := .unknown
      remoteAddress := ""
      lastStatus := none
      deployedAt := (existing.map (fun r => r.deployedAt)).getD now
      lastHeartbeat := none
      uptimeSec := 0
      recentActions := (existing.map (fun r => r.recentActions)).getD []
      recentErrors := (existing.map (fun r => r.recentErrors)).getD []
      totalActions := (existing.map (fun r => r.totalActions)).getD 0
      totalSpend := (existing.map (fun r => r.totalSpend)).getD 0 }
  fun id => if id = manifest.identity.id then some record else m id

/-- `FleetManager.removeAgent`: delete the record. -/
def removeAgent (m : String → Option AgentRecord) (agentId : String) :
    String → Option AgentRecord :=
  fun id => if id = agentId then none else m id

/-- The `totalSpend` delta contributed by one recorded action. -/
def spendContrib (a : ActionLogEntry) : ℚ :=
  if a.category = "spend" ∧ jsTruthy (lookupDetail a.details "amount") then
    (jsToNumber (lookupDetail a.details "amount")).getD 0
  else 0

/-- A concrete schema-conforming manifest, used as test input. -/
def sampleManifest : MoltAgentManifest :=
  { schemaVersion := "1.0"
    identity := { id := "00000000-0000-4000-8000-000000000001", name := "agent"
                  ownerId := "owner", description := none, avatarUrl := none
                  tags := [] }
    agentConfig := { systemPrompt := "p", provider := "anthropic", model := "m"
                     temperature := 1, maxTokens := 4096, skills := []
                     customTools := [] }
    capabilities := { webBrowsing := false, codeExecution := false
                      terminalAccess := false, fileSystem := false, repos := []
                      systemPackages := [], npmGlobals := [], pipPackages := [] }
    channels := { channels := [] }
    resources := { serverType := "cpx21", region := "nbg1", diskSizeGb := 0
                   dockerImage := "", provider := "" }
    financialControls := { maxPerTransaction := 0, maxPerDay := 0
                           maxPerMonth := 0, cryptoWalletEnabled := false
                           walletAddress := ""
                           requireApprovalForAllSpend := true }
    controlPlane := { url := "wss://cp.example/ws", token := "tok"
                      heartbeatIntervalSec := 30
                      statusReportIntervalSec := 300 }
    retention := { actionLogRetentionDays := 7
                   sessionRecordingRetentionDays := 3, liveActionStream := true
                   screenRecording := false }
    goals := { goals := [] }
    knowledge := { urls := [], filePaths := [], documents := [] }
    metadata := [] }

/-- A concrete fresh fleet record for `sampleManifest`, used as test input. -/
def sampleRecord : AgentRecord :=
  { manifest := sampleManifest, inst := none, connection := .unknown
    remoteAddress := "", lastStatus := none, deployedAt := "t0"
    lastHeartbeat := none, uptimeSec := 0, recentActions := []
    recentErrors := [], totalActions := 0, totalSpend := 0 }

/-- A concrete spend action whose `details.amount` is the string "5", used as
test input. -/
def sampleSpendAction : ActionLogEntry :=
  { id := "act1", timestamp := "t1", category := "spend", summary := "buy"
    details := some [("amount", JsVal.str "5")], durationMs := none }

-- ═══════════════════ Bridge (C7, C9) ═══════════════════
-- Source: src/extensions/moltagent/src/bridge.ts, class MoltAgentBridge

/-- `ws.readyState` of the WebSocket client. -/
inductive WsReady
  | connecting
  | opened
  | closing
  | wsClosed
deriving DecidableEq, Repr

/-- The request payload of `requestApproval` / `approval_request`
(`ApprovalRequest` in bridge.ts) is `ApprovalReq` above. Messages the agent
sends to the control plane (`AgentMessage`); the JSON wire encoding is kept
abstract and messages are recorded as values. -/
inductive AgentMessage
  | heartbeat (agentId : String) (timestamp : String) (uptimeSec : Nat)
  | statusMsg (agentId : String) (status : AgentStatusReport)
  | actionMsg (agentId : String) (action : ActionLogEntry)
  | approvalRequest (agentId : String) (request : ApprovalReq)
  | errorMsg (agentId : String) (error : String)
deriving DecidableEq, Repr

/-- Bridge state: socket readiness (`none` = `this.ws` is null), the
reconnect-attempt counter, the `closed` flag, the delays (ms) of reconnect
timers scheduled so far, the frames actually written to the socket, and the
pending-approval handler keys. -/
structure BridgeState where
  ws : Option WsReady
  reconnectAttempt : Nat
  closed : Bool
  scheduled : List Nat
  outbox : List AgentMessage
  pendingApprovals : List String
deriving DecidableEq, Repr

/-- `maxReconnectDelay` (60 000 ms). -/
def maxReconnectDelay : Nat := 60000

/-- `MoltAgentBridge.scheduleReconnect` (lines 218-227): nothing after
`close()`; otherwise increment the attempt counter and schedule a reconnect
after `min(1000 · 2^(attempt-1), maxReconnectDelay)` ms. -/
def scheduleReconnect (s : BridgeState) : BridgeState :=
  if s.closed then s
  else
    { s with
      reconnectAttempt := s.reconnectAttempt + 1
      scheduled := s.scheduled
        ++ [min (1000 * 2 ^ (s.reconnectAttempt + 1 - 1)) maxReconnectDelay] }

/-- The `open` handler inside `connect` (lines 102-106): reset the attempt
counter (heartbeat start and `onConnected` are outside this model). -/
def onOpen (s : BridgeState) : BridgeState :=
  { s with reconnectAttempt := 0, ws := some .opened }

/-- `MoltAgentBridge.connect` (lines 92-127): a no-op once `closed`;
otherwise a new WebSocket is created (readyState connecting). The returned
flag tells whether a socket was created. -/
def bridgeConnect (s : BridgeState) : BridgeState × Bool :=
  if s.closed then (s, false)
  else ({ s with ws := some .connecting }, true)

/-- The socket `close` handler (lines 117-121): stop the heartbeat, report,
then `scheduleReconnect`. -/
def onSocketClose (s : BridgeState) : BridgeState :=
  scheduleReconnect { s with ws := some .wsClosed }

/-- `MoltAgentBridge.close` (lines 184-189): set `closed`, close and drop the
socket. -/
def bridgeClose (s : BridgeState) : BridgeState :=
  { s with closed := true, ws := none }

/-- `MoltAgentBridge.send` (lines 129-133): write the frame only when the
socket exists and its readyState is OPEN; otherwise do nothing at all. -/
def bridgeSend (s : BridgeState) (msg : AgentMessage) : BridgeState :=
  if s.ws = some .opened then { s with outbox := s.outbox ++ [msg] } else s

/-- `MoltAgentBridge.sendHeartbeat`: uptime is
`Math.floor((Date.now() - startTime) / 1000)`. -/
def sendHeartbeat (s : BridgeState) (agentId nowIso : String)
    (now startTime : Int) : BridgeState :=
  bridgeSend s (.heartbeat agentId nowIso (((now - startTime) / 1000).toNat))

/-- `MoltAgentBridge.sendStatus`. -/
def sendStatus (s : BridgeState) (agentId : String) (st : AgentStatusReport) :
    BridgeState :=
  bridgeSend s (.statusMsg agentId st)

/-- `MoltAgentBridge.sendAction`. -/
def sendAction (s : BridgeState) (agentId : String) (a : ActionLogEntry) :
    BridgeState :=
  bridgeSend s (.actionMsg agentId a)

/-- The synchronous part of `MoltAgentBridge.requestApproval` (lines 152-182):
register the pending handler under the request id, then emit the
`approval_request` frame through `send`. -/
def requestApprovalStart (s : BridgeState) (agentId : String)
    (r : ApprovalReq) : BridgeState :=
  bridgeSend { s with pendingApprovals := s.pendingApprovals ++ [r.id] }
    (.approvalRequest agentId r)

-- ═══════════════════ Provisioner and dashboard (C10) ═══════════════════
-- Source: src/extensions/moltagent/src/provisioner.ts and dashboard-api.ts

/-- `DestroyResult` from provisioner.ts. -/
structure DestroyResult where
  success : Bool
  error : Option String
deriving DecidableEq, Repr

/-- `MoltAgentProvisioner.destroy` (lines 118-134): fail without touching the
index when no instance is indexed for the agent or its provider is not
registered; otherwise call the provider (its network outcome is the oracle
`providerOutcome`) and drop the index entry only on success. -/
def provisionerDestroy (instances : String → Option VpsInstance)
    (providerKnown : String → Bool) (providerOutcome : DestroyResult)
    (agentId : String) :
    DestroyResult × (String → Option VpsInstance) :=
  match instances agentId with
  | none =>
    ({ success := false,
       error := some ("No instance found for agent " ++ agentId) }, instances)
  | some inst =>
    if providerKnown inst.provider = false then
      ({ success := false,
         error := some ("Provider " ++ inst.provider ++ " not found") },
        instances)
    else if providerOutcome.success then
      (providerOutcome, fun id => if id = agentId then none else instances id)
    else (providerOutcome, instances)

/-- Response of the dashboard DELETE route: HTTP status, the body's `ok`
flag, and the body's `destroyResult` when present. -/
structure RouteRes where
  status : Nat
  ok : Bool
  destroyResult : Option DestroyResult
deriving DecidableEq, Repr

/-- The `DELETE /agents/:id` dashboard route (dashboard-api.ts lines
174-189) after auth: relay `shutdown` (not modelled — it never affects the
response), run `provisioner.destroy`, then unconditionally
`fleet.removeAgent`, and answer 200 with the destroy result in the body.
Without auth the handler answers 401 before reaching the route. -/
def dashboardDeleteAgent (authOk : Bool)
    (fleet : String → Option AgentRecord)
    (instances : String → Option VpsInstance)
    (providerKnown : String → Bool) (providerOutcome : DestroyResult)
    (agentId : String) :
    RouteRes × (String → Option AgentRecord) × (String → Option VpsInstance) :=
  if authOk = false then
    ({ status := 401, ok := false, destroyResult := none }, fleet, instances)
  else
    let d := provisionerDestroy instances providerKnown providerOutcome agentId
    ({ status := 200, ok := true, destroyResult := some d.1 },
      removeAgent fleet agentId, d.2)

-- ═══════════════════ Cloud-init generator (C8) ═══════════════════
-- Source: src/extensions/moltagent/src/cloud-init.ts, generateCloudInit.
-- JSON.stringify and Buffer base64 are platform built-ins, modelled by
-- concrete serializers below; `new Date().toISOString()` (line 71) is the
-- explicit `nowIso` parameter.

/-- JavaScript `s.replace(pat, repl)` on character lists: substitute the
first occurrence of `pat` (taken non-empty) by `repl`. -/
def replaceFirstOcc (pat repl : List Char) : List Char → List Char
  | [] => []
  | c :: cs =>
    match dropLead pat (c :: cs) with
    | some rest => repl ++ rest
    | none => c :: replaceFirstOcc pat repl cs

/-- JavaScript `s.replace(pat, repl)` with a string pattern. -/
def replaceFirst (s pat repl : String) : String :=
  String.mk (replaceFirstOcc pat.data repl.data s.data)

/-- The regex `/\/ws$/` deletion: drop a trailing "/ws". -/
def stripWsSuffix (s : String) : String :=
  if s.data.reverse.take 3 = ['s', 'w', '/'] then
    String.mk (s.data.take (s.data.length - 3))
  else s

/-- UTF-8 encoding of one character (byte values as `Nat`). -/
def utf8BytesChar (c : Char) : List Nat :=
  let n := c.toNat
  if n < 128 then [n]
  else if n < 2048 then [192 + n / 64, 128 + n % 64]
  else if n < 65536 then [224 + n / 4096, 128 + (n / 64) % 64, 128 + n % 64]
  else [240 + n / 262144, 128 + (n / 4096) % 64, 128 + (n / 64) % 64,
    128 + n % 64]

/-- UTF-8 bytes of a string. -/
def utf8Bytes (s : String) : List Nat :=
  (s.data.map utf8BytesChar).flatten

/-- The base64 alphabet. -/
def base64Chars : List Char :=
  "ABCDEFGHIJKLMNOPQRSTUVWXYZabcdefghijklmnopqrstuvwxyz0123456789+/".data

/-- The base64 digit for a 6-bit value. -/
def b64Char (n : Nat) : Char := base64Chars.getD n 'A'

/-- Standard base64 with '=' padding (`Buffer.toString("base64")`). -/
def base64Encode : List Nat → String
  | [] => ""
  | [b1] => String.mk [b64Char (b1 / 4), b64Char (b1 % 4 * 16), '=', '=']
  | [b1, b2] => String.mk [b64Char (b1 / 4), b64Char (b1 % 4 * 16 + b2 / 16),
      b64Char (b2 % 16 * 4), '=']
  | b1 :: b2 :: b3 :: rest =>
    String.mk [b64Char (b1 / 4), b64Char (b1 % 4 * 16 + b2 / 16),
      b64Char (b2 % 16 * 4 + b3 / 64), b64Char (b3 % 64)]
      ++ base64Encode rest

/-- One lowercase hex digit. -/
def hexDigit (n : Nat) : Char :=
  if n < 10 then Char.ofNat (48 + n) else Char.ofNat (87 + n)

/-- JSON escaping of one character, as `JSON.stringify` performs it. -/
def jsonEscapeChar (c : Char) : String :=
  if c = '"' then "\\\""
  else if c = '\\' then "\\\\"
  else if c = '\n' then "\\n"
  else if c = '\r' then "\\r"
  else if c = '\t' then "\\t"
  else if c = '\x08' then "\\b"
  else if c = '\x0c' then "\\f"
  else if c.toNat < 32 then
    "\\u00" ++ String.mk [hexDigit (c.toNat / 16), hexDigit (c.toNat % 16)]
  else String.mk [c]

/-- A JSON string literal. -/
def jsonString (s : String) : String :=
  "\"" ++ String.join (s.data.map jsonEscapeChar) ++ "\""

/-- JSON form of a boolean. -/
def jsonBool (b : Bool) : String := if b then "true" else "false"

/-- JSON form of a natural number. -/
def jsonNat (n : Nat) : String := Nat.repr n

/-- JSON form of a rational manifest number. Integral values print exactly as
JavaScript prints them; for non-integral values this is a deterministic
placeholder notation (JS prints a decimal expansion) — determinism, not the
digit string, is what C8 is about. -/
def jsonRat (q : ℚ) : String :=
  if q.den = 1 then
    (if q.num < 0 then "-" else "") ++ Nat.repr q.num.natAbs
  else
    (if q.num < 0 then "-" else "") ++ Nat.repr q.num.natAbs ++ "/"
      ++ Nat.repr q.den

/-- JSON form of a scalar JS value; `none` when `JSON.stringify` would drop
the key (`undefined`). `NaN` serializes as `null`. -/
def jsonOfJsVal : JsVal → Option String
  | .num q => some (jsonRat q)
  | .nan => some "null"
  | .str s => some (jsonString s)
  | .boolV b => some (jsonBool b)
  | .nullV => some "null"
  | .undefV => none

/-- A JSON object from already-serialized field values; `none` fields are
dropped as `JSON.stringify` drops `undefined` properties. -/
def jsonObj (fields : List (String × Option String)) : String :=
  "\x7b"
    ++ String.intercalate ","
      (fields.filterMap (fun p => p.2.map (fun v => jsonString p.1 ++ ":" ++ v)))
    ++ "\x7d"

/-- A JSON array from already-serialized elements. -/
def jsonArr (elems : List String) : String :=
  "[" ++ String.intercalate "," elems ++ "]"

/-- A JSON object from a record of scalar JS values. -/
def jsonKVs (kvs : List (String × JsVal)) : String :=
  jsonObj (kvs.map (fun p => (p.1, jsonOfJsVal p.2)))

/-- JSON of one repo entry. -/
def jsonOfRepo (r : RepoSpec) : String :=
  jsonObj [("url", some (jsonString r.url)),
    ("branch", some (jsonString r.branch)),
    ("path", some (jsonString r.path)),
    ("setupCommand", r.setupCommand.map jsonString)]

/-- JSON of one custom tool. -/
def jsonOfCustomTool (t : CustomTool) : String :=
  jsonObj [("name", some (jsonString t.name)),
    ("description", some (jsonString t.description)),
    ("inputSchema", t.inputSchema.map jsonKVs)]

/-- JSON of one channel config. -/
def jsonOfChannel (c : ChannelConfig) : String :=
  jsonObj [("type", some (jsonString c.type)),
    ("credentials",
      some (jsonObj (c.credentials.map
        (fun p => (p.1, some (jsonString p.2)))))),
    ("settings", some (jsonKVs c.settings)),
    ("enabled", some (jsonBool c.enabled))]

/-- JSON of one key result. -/
def jsonOfKeyResult (k : KeyResult) : String :=
  jsonObj [("description", some (jsonString k.description)),
    ("targetValue", k.targetValue.map jsonRat),
    ("currentValue", some (jsonRat k.currentValue)),
    ("unit", some (jsonString k.unit))]

/-- JSON of one goal. -/
def jsonOfGoal (g : AgentGoal) : String :=
  jsonObj [("title", some (jsonString g.title)),
    ("description", some (jsonString g.description)),
    ("priority", some (jsonNat g.priority)),
    ("dueDate", g.dueDate.map jsonString),
    ("keyResults", some (jsonArr (g.keyResults.map jsonOfKeyResult)))]

/-- `JSON.stringify(manifest)`: keys in schema declaration order (zod parse
rebuilds the object in shape order). -/
def jsonOfManifest (m : MoltAgentManifest) : String :=
  jsonObj
    [("schemaVersion", some (jsonString m.schemaVersion)),
      ("identity", some (jsonObj
        [("id", some (jsonString m.identity.id)),
          ("name", some (jsonString m.identity.name)),
          ("ownerId", some (jsonString m.identity.ownerId)),
          ("description", m.identity.description.map jsonString),
          ("avatarUrl", m.identity.avatarUrl.map jsonString),
          ("tags", some (jsonArr (m.identity.tags.map jsonString)))])),
      ("agentConfig", some (jsonObj
        [("systemPrompt", some (jsonString m.agentConfig.systemPrompt)),
          ("provider", some (jsonString m.agentConfig.provider)),
          ("model", some (jsonString m.agentConfig.model)),
          ("temperature", some (jsonRat m.agentConfig.temperature)),
          ("maxTokens", some (jsonNat m.agentConfig.maxTokens)),
          ("skills", some (jsonArr (m.agentConfig.skills.map jsonString))),
          ("customTools", some (jsonArr
            (m.agentConfig.customTools.map jsonOfCustomTool)))])),
      ("capabilities", some (jsonObj
        [("webBrowsing", some (jsonBool m.capabilities.webBrowsing)),
          ("codeExecution", some (jsonBool m.capabilities.codeExecution)),
          ("terminalAccess", some (jsonBool m.capabilities.terminalAccess)),
          ("fileSystem", some (jsonBool m.capabilities.fileSystem)),
          ("repos", some (jsonArr (m.capabilities.repos.map jsonOfRepo))),
          ("systemPackages", some (jsonArr
            (m.capabilities.systemPackages.map jsonString))),
          ("npmGlobals", some (jsonArr
            (m.capabilities.npmGlobals.map jsonString))),
          ("pipPackages", some (jsonArr
            (m.capabilities.pipPackages.map jsonString)))])),
      ("channels", some (jsonObj
        [("channels", some (jsonArr
          (m.channels.channels.map jsonOfChannel)))])),
      ("resources", some (jsonObj
        [("serverType", some (jsonString m.resources.serverType)),
          ("region", some (jsonString m.resources.region)),
          ("diskSizeGb", some (jsonNat m.resources.diskSizeGb)),
          ("dockerImage", some (jsonString m.resources.dockerImage)),
          ("provider", some (jsonString m.resources.provider))])),
      ("financialControls", some (jsonObj
        [("maxPerTransaction",
            some (jsonRat m.financialControls.maxPerTransaction)),
          ("maxPerDay", some (jsonRat m.financialControls.maxPerDay)),
          ("maxPerMonth", some (jsonRat m.financialControls.maxPerMonth)),
          ("cryptoWalletEnabled",
            some (jsonBool m.financialControls.cryptoWalletEnabled)),
          ("walletAddress",
            some (jsonString m.financialControls.walletAddress)),
          ("requireApprovalForAllSpend",
            some (jsonBool m.financialControls.requireApprovalForAllSpend))])),
      ("controlPlane", some (jsonObj
        [("url", some (jsonString m.controlPlane.url)),
          ("token", some (jsonString m.controlPlane.token)),
          ("heartbeatIntervalSec",
            some (jsonNat m.controlPlane.heartbeatIntervalSec)),
          ("statusReportIntervalSec",
            some (jsonNat m.controlPlane.statusReportIntervalSec))])),
      ("retention", some (jsonObj
        [("actionLogRetentionDays",
            some (jsonNat m.retention.actionLogRetentionDays)),
          ("sessionRecordingRetentionDays",
            some (jsonNat m.retention.sessionRecordingRetentionDays)),
          ("liveActionStream", some (jsonBool m.retention.liveActionStream)),
          ("screenRecording", some (jsonBool m.retention.screenRecording))])),
      ("goals", some (jsonObj
        [("goals", some (jsonArr (m.goals.goals.map jsonOfGoal)))])),
      ("knowledge", some (jsonObj
        [("urls", some (jsonArr (m.knowledge.urls.map jsonString))),
          ("filePaths", some (jsonArr
            (m.knowledge.filePaths.map jsonString))),
          ("documents", some (jsonArr (m.knowledge.documents.map (fun d =>
            jsonObj [("title", some (jsonString d.title)),
              ("content", some (jsonString d.content))]))))])),
      ("metadata", some (jsonKVs m.metadata))]

/-- `manifestB64` (cloud-init.ts lines 19-21). -/
def manifestB64 (m : MoltAgentManifest) : String :=
  base64Encode (utf8Bytes (jsonOfManifest m))

/-- `repoSetupCommands` (lines 23-31): one block per repo joined by blank
lines; the `setupCommand` line appears only when truthy. -/
def repoSetupCommands (m : MoltAgentManifest) : String :=
  String.intercalate "\n\n"
    (m.capabilities.repos.map (fun repo =>
      "echo \"[moltagent] Cloning " ++ repo.url ++ " -> " ++ repo.path
        ++ "\"\n"
        ++ "mkdir -p \"$(dirname '" ++ repo.path ++ "')\"\n"
        ++ "git clone --branch '" ++ repo.branch ++ "' --depth 1 '"
        ++ repo.url ++ "' '" ++ repo.path ++ "'\n"
        ++ (match repo.setupCommand with
            | some sc =>
              if sc = "" then ""
              else "cd '" ++ repo.path ++ "' && " ++ sc
            | none => "")))

/-- `systemPkgs` (lines 33-35). -/
def systemPkgsLine (m : MoltAgentManifest) : String :=
  if m.capabilities.systemPackages.length ≠ 0 then
    "apt-get install -y "
      ++ String.intercalate " " m.capabilities.systemPackages
  else ""

/-- `npmGlobals` (lines 37-39). -/
def npmGlobalsLine (m : MoltAgentManifest) : String :=
  if m.capabilities.npmGlobals.length ≠ 0 then
    "npm install -g " ++ String.intercalate " " m.capabilities.npmGlobals
  else ""

/-- `pipPkgs` (lines 41-43). -/
def pipPkgsLine (m : MoltAgentManifest) : String :=
  if m.capabilities.pipPackages.length ≠ 0 then
    "pip3 install " ++ String.intercalate " " m.capabilities.pipPackages
  else ""

/-- `chromeInstall` (lines 45-54). -/
def chromeInstall (m : MoltAgentManifest) : String :=
  if m.capabilities.webBrowsing then
    "\n# -- Chrome for web browsing --\necho \"[moltagent] Installing Chrome...\"\nwget -q -O /tmp/chrome.deb https://dl.google.com/linux/direct/google-chrome-stable_current_amd64.deb\napt-get install -y /tmp/chrome.deb || apt-get install -yf\nrm -f /tmp/chrome.deb\n# Install Playwright browsers\nnpx playwright install --with-deps chromium"
  else ""

/-- `pythonInstall` (lines 56-61). -/
def pythonInstall (m : MoltAgentManifest) : String :=
  if m.capabilities.pipPackages.length > 0 then
    "\necho \"[moltagent] Installing Python...\"\napt-get install -y python3 python3-pip python3-venv"
  else ""

/-- `gatewayPort` (line 63). -/
def gatewayPort : String := "18789"

/-- `CONTROL_PLANE_URL` (line 166): scheme rewritten to HTTP(S) and a
trailing "/ws" removed. -/
def controlPlaneHttpUrl (m : MoltAgentManifest) : String :=
  stripWsSuffix
    (replaceFirst (replaceFirst m.controlPlane.url "wss://" "https://")
      "ws://" "http://")

/-- The 60-character "=" rule of the script's banner comments. -/
def eqRule : String := String.mk (List.replicate 60 '=')

/-- The template text of `generateCloudInit` before the spliced
`new Date().toISOString()` (lines 65-71). -/
def cloudInitPre (m : MoltAgentManifest) : String :=
  "#!/bin/bash\nset -euo pipefail\n\n# " ++ eqRule
    ++ "\n# MoltAgent Cloud-Init Bootstrap\n# Agent: "
    ++ m.identity.name ++ " (" ++ m.identity.id ++ ")\n# Generated: "

/-- The template text of `generateCloudInit` after the spliced timestamp
(lines 72-174). -/
def cloudInitRest (m : MoltAgentManifest) : String :=
  "\n# " ++ eqRule ++ "\n\nexport DEBIAN_FRONTEND=noninteractive\n\necho \"[moltagent] Starting bootstrap...\"\n\n# -- System update --\napt-get update -qq\napt-get upgrade -y -qq\n\n# -- Core system packages --\napt-get install -y -qq \\\n  curl wget git jq unzip ca-certificates gnupg \\\n  build-essential\n\n# -- Node.js 22 --\necho \"[moltagent] Installing Node.js 22...\"\ncurl -fsSL https://deb.nodesource.com/setup_22.x | bash -\napt-get install -y nodejs\nnpm install -g pnpm@latest\n\n"
    ++ pythonInstall m
    ++ "\n\n"
    ++ chromeInstall m
    ++ "\n\n# -- Additional system packages --\n"
    ++ systemPkgsLine m
    ++ "\n\n# -- Moltbot --\necho \"[moltagent] Installing moltbot...\"\nnpm install -g moltbot@latest\n\n# -- Additional npm globals --\n"
    ++ npmGlobalsLine m
    ++ "\n\n# -- Additional pip packages --\n"
    ++ pipPkgsLine m
    ++ "\n\n# -- Write agent manifest --\necho \"[moltagent] Writing agent manifest...\"\nmkdir -p /opt/moltagent\necho '"
    ++ manifestB64 m
    ++ "' | base64 -d > /opt/moltagent/manifest.json\nchmod 600 /opt/moltagent/manifest.json\n\n# -- Workspace directory --\nmkdir -p /workspace\ncd /workspace\n\n# -- Clone repos --\n"
    ++ repoSetupCommands m
    ++ "\n\n# -- Configure moltbot --\necho \"[moltagent] Configuring moltbot...\"\nmoltbot config set gateway.mode local\nmoltbot config set gateway.port "
    ++ gatewayPort
    ++ "\n\n# Configure channels from manifest\nCHANNELS=$(cat /opt/moltagent/manifest.json | jq -r '.channels.channels[]? | select(.enabled == true) | .type')\nfor CHANNEL in $CHANNELS; do\n  echo \"[moltagent] Enabling channel: $CHANNEL\"\ndone\n\n# -- Create systemd service --\necho \"[moltagent] Creating systemd service...\"\ncat > /etc/systemd/system/moltagent.service << 'SYSTEMD_EOF'\n[Unit]\nDescription=MoltAgent Gateway\nAfter=network-online.target\nWants=network-online.target\n\n[Service]\nType=simple\nUser=root\nWorkingDirectory=/workspace\nEnvironment=NODE_ENV=production\nEnvironment=MOLTAGENT_MANIFEST=/opt/moltagent/manifest.json\nEnvironment=MOLTAGENT_ID="
    ++ m.identity.id
    ++ "\nExecStart=/usr/bin/moltbot gateway run --bind 0.0.0.0 --port "
    ++ gatewayPort
    ++ " --force\nRestart=always\nRestartSec=5\n\n[Install]\nWantedBy=multi-user.target\nSYSTEMD_EOF\n\nsystemctl daemon-reload\nsystemctl enable moltagent\nsystemctl start moltagent\n\n# -- Signal readiness to control plane --\necho \"[moltagent] Bootstrap complete. Agent "
    ++ m.identity.name
    ++ " is live.\"\necho \"[moltagent] Gateway running on port "
    ++ gatewayPort
    ++ "\"\n\n# Notify control plane that we're ready (best-effort)\nCONTROL_PLANE_URL=\""
    ++ controlPlaneHttpUrl m
    ++ "\"\ncurl -sf -X POST \"$\x7bCONTROL_PLANE_URL\x7d/agents/"
    ++ m.identity.id
    ++ "/status\" \\\n  -H \"Authorization: Bearer "
    ++ m.controlPlane.token
    ++ "\" \\\n  -H \"Content-Type: application/json\" \\\n  -d '\x7b\"status\":\"ready\",\"ip\":\"'\"$(curl -sf https://checkip.amazonaws.com || echo unknown)\"'\"\x7d' \\\n  || echo \"[moltagent] Control plane notification failed (non-fatal)\"\n\necho \"[moltagent] Done.\"\n"

/-- `generateCloudInit(manifest)` (lines 18-175) with the wall-clock reading
of line 71 made an explicit parameter: the returned script is the template
around the spliced `nowIso`. -/
def generateCloudInit (m : MoltAgentManifest) (nowIso : String) : String :=
  cloudInitPre m ++ nowIso ++ cloudInitRest m

-- ═══════════════════════════ Theorems ═══════════════════════════

/-- C1: the claim asserts that in BOTH modes a client presenting the shared
token via the `Authorization: Bearer` header is admitted. In standalone mode
the header is never read: a connection carrying the correct token only in the
header (no `token` query parameter) is rejected by closing the socket, so the
claim as stated is false. -/
theorem c1_counterexample :
    standaloneDecision "secret" (some "Bearer secret") none (some "agent-1")
      = StandaloneDecision.close4001 := by decide

/-- C1 (amended): in attached mode the claim holds as stated — the shared
token may arrive as the `token` query parameter or as an `Authorization`
header whose Bearer marker strips to the token, a non-empty `agentId` is
mandatory, a missing or wrong token draws 401 and a missing or empty agentId
draws 400, all before the upgrade completes. In standalone mode the token is
accepted only as the `token` query parameter — the request headers are
ignored — and a wrong or missing token, or missing agentId, is rejected by
closing the accepted WebSocket with code 4001 "Unauthorized" rather than an
HTTP 401/400 response. -/
theorem c1_admission (tok hdr a : String) (hA : Option String)
    (htok : tok ≠ "") (ha : a ≠ "")
    (hhdr : replaceFirstDrop hdr "Bearer " = tok) :
    (attachDecision tok (some tok) hA (some a) = .accept a) ∧
    (attachDecision tok none (some hdr) (some a) = .accept a) ∧
    (∀ qT qA, presentedToken qT hA ≠ some tok →
      attachDecision tok qT hA qA = .reject401) ∧
    (attachDecision tok (some tok) hA none = .reject400) ∧
    (attachDecision tok (some tok) hA (some "") = .reject400) ∧
    (standaloneDecision tok (some ("Bearer " ++ tok)) none (some a)
      = .close4001) ∧
    (∀ h1 h2 qT qA,
      standaloneDecision tok h1 qT qA = standaloneDecision tok h2 qT qA) ∧
    (standaloneDecision tok hA (some tok) (some a) = .accept a) ∧
    (∀ qT qA, qT ≠ some tok ∨ qA = none ∨ qA = some "" →
      standaloneDecision tok hA qT qA = .close4001) := by
  refine ⟨?_, ?_, ?_, ?_, ?_, ?_, ?_, ?_, ?_⟩
  · simp [attachDecision, presentedToken, ha]
  · simp [attachDecision, presentedToken, hhdr, ha]
  · intro qT qA hne
    simp [attachDecision, hne]
  · simp [attachDecision, presentedToken]
  · simp [attachDecision, presentedToken]
  · unfold standaloneDecision
    rw [if_pos]
    exact Or.inl (fun e => htok e.symm)
  · intro h1 h2 qT qA
    rfl
  · simp [standaloneDecision, ha]
  · intro qT qA hcase
    unfold standaloneDecision
    rw [if_pos]
    rcases hcase with h | h | h
    · left
      cases qT with
      | none => simpa using fun e => htok e.symm
      | some t =>
          simp only [Option.getD_some]
          exact fun e => h (by rw [e])
    · subst h
      right
      rfl
    · subst h
      right
      rfl

theorem c1_admission_witness :
    attachDecision "secret" none (some "Bearer secret") (some "w1")
        = UpgradeDecision.accept "w1" ∧
      standaloneDecision "secret" (some "Bearer secret") none (some "w1")
        = StandaloneDecision.close4001 :=
  ⟨(c1_admission "secret" "Bearer secret" "w1" none (by decide) (by decide)
      (by decide)).2.1,
    (c1_admission "secret" "Bearer secret" "w1" none (by decide) (by decide)
      (by decide)).2.2.2.2.2.1⟩

/-- C2: the control-plane session map keeps at most one session per agent id:
`handleConnection` closes any previously indexed socket with code 4000
"Replaced by new connection" and indexes the new one, other agents' entries
are untouched, and the `close` handler evicts the entry (marking the fleet
record offline) only when the closing socket is the currently indexed one —
so a replaced session's close never evicts its replacement. -/
theorem c2_session_replacement (s : CPState) (a : String) (ws : Nat) :
    ((handleConnection s a ws).agents a = some ws) ∧
    (∀ old, s.agents a = some old →
      (handleConnection s a ws).closes
        = s.closes ++ [(old, 4000, "Replaced by new connection")]) ∧
    (s.agents a = none → (handleConnection s a ws).closes = s.closes) ∧
    (∀ b, b ≠ a → (handleConnection s a ws).agents b = s.agents b) ∧
    (∀ old, s.agents a ≠ some old → closeEvent s a old = s) ∧
    (∀ old, old ≠ ws →
      (closeEvent (handleConnection s a ws) a old).agents a = some ws) ∧
    (s.agents a = some ws →
      (closeEvent s a ws).agents a = none ∧
      (closeEvent s a ws).fleetConn a
        = (s.fleetConn a).map (fun _ => Conn.offline)) := by
  refine ⟨?_, ?_, ?_, ?_, ?_, ?_, ?_⟩
  · simp [handleConnection]
  · intro old h
    simp [handleConnection, h]
  · intro h
    simp [handleConnection, h]
  · intro b hb
    simp [handleConnection, hb]
  · intro old h
    simp [closeEvent, h]
  · intro old hold
    have hagents : (handleConnection s a ws).agents a = some ws := by
      simp [handleConnection]
    unfold closeEvent
    rw [if_neg]
    · exact hagents
    · rw [hagents]
      simp [Ne.symm hold]
  · intro h
    constructor
    · simp [closeEvent, h]
    · simp [closeEvent, h, updateAgentConnection]

theorem c2_session_replacement_witness :
    (closeEvent
        (handleConnection
          { agents := fun id => if id = "a1" then some 7 else none
            closes := []
            fleetConn := fun id => if id = "a1" then some Conn.unknown else none }
          "a1" 9)
        "a1" 7).agents "a1" = some 9 :=
  (c2_session_replacement
      { agents := fun id => if id = "a1" then some 7 else none
        closes := []
        fleetConn := fun id => if id = "a1" then some Conn.unknown else none }
      "a1" 9).2.2.2.2.2.1 7 (by decide)

-- ─────────────────── helper lemmas: approvals ───────────────────

theorem addToHistory_head (h : List Approval) (a : Approval) :
    (addToHistory h a).head? = some a := by
  unfold addToHistory maxHistory
  rw [show (1000 : Nat) = 999 + 1 from rfl, List.take_succ_cons]
  rfl

theorem addToHistory_mem (h : List Approval) (a : Approval) :
    ∀ x ∈ addToHistory h a, x = a ∨ x ∈ h := by
  intro x hx
  have hx' := List.take_subset _ _ hx
  simpa using hx'

theorem expireStep_queue_sub (now : Int) (st : AMState) (c : Approval) :
    ∀ b ∈ (expireStep now st c).queue, b ∈ st.queue := by
  intro b hb
  by_cases hc : c.state = AState.pending ∧ c.expiresAt < now
  · unfold expireStep at hb
    rw [if_pos hc] at hb
    exact (List.mem_filter.mp hb).1
  · unfold expireStep at hb
    rw [if_neg hc] at hb
    exact hb

theorem foldl_expire_queue_sub (now : Int) :
    ∀ (l : List Approval) (st : AMState),
      ∀ b ∈ (l.foldl (expireStep now) st).queue, b ∈ st.queue := by
  intro l
  induction l with
  | nil => intro st b hb; exact hb
  | cons c l ih =>
      intro st b hb
      rw [List.foldl_cons] at hb
      exact expireStep_queue_sub now st c b (ih _ b hb)

theorem foldl_expire_hist_prov (s0 : AMState) (now : Int) :
    ∀ (l : List Approval) (st : AMState),
      (∀ c ∈ l, c ∈ s0.queue) →
      (∀ h ∈ st.history, h ∈ s0.history ∨
        ∃ b, b ∈ s0.queue ∧ b.state = AState.pending ∧ b.expiresAt < now ∧
          h = { b with state := AState.expired }) →
      ∀ h ∈ (l.foldl (expireStep now) st).history, h ∈ s0.history ∨
        ∃ b, b ∈ s0.queue ∧ b.state = AState.pending ∧ b.expiresAt < now ∧
          h = { b with state := AState.expired } := by
  intro l
  induction l with
  | nil => intro st _ hst h hh; exact hst h hh
  | cons c l ih =>
      intro st hl hst h hh
      rw [List.foldl_cons] at hh
      refine ih _ (fun x hx => hl x (List.mem_cons_of_mem _ hx)) ?_ h hh
      intro x hx
      by_cases hc : c.state = AState.pending ∧ c.expiresAt < now
      · unfold expireStep at hx
        rw [if_pos hc] at hx
        rcases addToHistory_mem _ _ _ hx with rfl | hx'
        · exact Or.inr ⟨c, hl c (List.mem_cons_self c l), hc.1, hc.2, rfl⟩
        · exact hst _ hx'
      · unfold expireStep at hx
        rw [if_neg hc] at hx
        exact hst _ hx

theorem expireStep_removes (now : Int) (st : AMState) (c : Approval)
    (h : c.state = AState.pending ∧ c.expiresAt < now) :
    ∀ b ∈ (expireStep now st c).queue, b.id ≠ c.id := by
  intro b hb
  unfold expireStep at hb
  rw [if_pos h] at hb
  have hb' := (List.mem_filter.mp hb).2
  simpa using hb'

theorem foldl_expire_absent (now : Int) :
    ∀ (l : List Approval) (st : AMState) (x : String),
      (∀ b ∈ st.queue, b.id ≠ x) →
      ∀ b ∈ (l.foldl (expireStep now) st).queue, b.id ≠ x := by
  intro l
  induction l with
  | nil => intro st x hst b hb; exact hst b hb
  | cons c l ih =>
      intro st x hst b hb
      rw [List.foldl_cons] at hb
      exact ih _ x (fun y hy => hst y (expireStep_queue_sub now st c y hy)) b hb

theorem foldl_expire_removes (now : Int) :
    ∀ (l : List Approval) (st : AMState) (a : Approval),
      a ∈ l → a.state = AState.pending → a.expiresAt < now →
      ∀ b ∈ (l.foldl (expireStep now) st).queue, b.id ≠ a.id := by
  intro l
  induction l with
  | nil => intro st a ha; exact absurd ha (List.not_mem_nil a)
  | cons c l ih =>
      intro st a ha hp hd b hb
      rw [List.foldl_cons] at hb
      rcases List.mem_cons.mp ha with rfl | ha'
      · exact foldl_expire_absent now l _ a.id
          (expireStep_removes now st a ⟨hp, hd⟩) b hb
      · exact ih _ a ha' hp hd b hb

theorem foldl_expire_preserves (now : Int) :
    ∀ (l : List Approval) (st : AMState) (a : Approval),
      a ∈ st.queue →
      ¬(a.state = AState.pending ∧ a.expiresAt < now) →
      (∀ c ∈ l, c = a ∨ c.id ≠ a.id) →
      a ∈ (l.foldl (expireStep now) st).queue := by
  intro l
  induction l with
  | nil => intro st a ha _ _; exact ha
  | cons c l ih =>
      intro st a ha hna hl
      rw [List.foldl_cons]
      refine ih _ a ?_ hna (fun x hx => hl x (List.mem_cons_of_mem _ hx))
      by_cases hc : c.state = AState.pending ∧ c.expiresAt < now
      · rcases hl c (List.mem_cons_self c l) with rfl | hid
        · exact absurd hc hna
        · unfold expireStep
          rw [if_pos hc]
          exact List.mem_filter.mpr ⟨ha, by simpa using Ne.symm hid⟩
      · unfold expireStep
        rw [if_neg hc]
        exact ha

/-- C3: `resolve` returns `none` and leaves the manager unchanged when the id
is not queued or the entry is not pending (in particular a second resolve of
the same id); otherwise it flips the entry to approved when `approved` and to
denied otherwise, stamps responder and response instant, removes it from the
queue, unshifts it onto the history (newest first), fires `onResolved`, and
returns the resolved record. -/
theorem c3_resolve_spec (s : AMState) (requestId rb : String) (approved : Bool)
    (reason : Option String) (now : Int) :
    (s.queue.find? (fun b => b.id = requestId) = none →
      resolve s requestId approved rb reason now = (none, s)) ∧
    (∀ a, s.queue.find? (fun b => b.id = requestId) = some a →
      a.state ≠ AState.pending →
      resolve s requestId approved rb reason now = (none, s)) ∧
    (∀ a, s.queue.find? (fun b => b.id = requestId) = some a →
      a.state = AState.pending →
      (resolve s requestId approved rb reason now).1
          = some (resolvedRecord a approved rb reason now) ∧
        (resolvedRecord a approved rb reason now).state
          = (if approved then AState.approved else AState.denied) ∧
        (resolvedRecord a approved rb reason now).respondedBy = some rb ∧
        (resolvedRecord a approved rb reason now).reason = reason ∧
        (resolvedRecord a approved rb reason now).respondedAt = some now ∧
        (resolvedRecord a approved rb reason now).id = a.id ∧
        (resolvedRecord a approved rb reason now).agentId = a.agentId ∧
        (∀ b ∈ (resolve s requestId approved rb reason now).2.queue,
          b ∈ s.queue ∧ b.id ≠ requestId) ∧
        (∀ b ∈ s.queue, b.id ≠ requestId →
          b ∈ (resolve s requestId approved rb reason now).2.queue) ∧
        ((resolve s requestId approved rb reason now).2.history.head?
          = some (resolvedRecord a approved rb reason now)) ∧
        (∀ h ∈ (resolve s requestId approved rb reason now).2.history,
          h = resolvedRecord a approved rb reason now ∨ h ∈ s.history) ∧
        ((resolve s requestId approved rb reason now).2.resolvedEvents
          = s.resolvedEvents ++ [resolvedRecord a approved rb reason now]) ∧
        (∀ approved2 rb2 reason2 now2,
          resolve (resolve s requestId approved rb reason now).2 requestId
              approved2 rb2 reason2 now2
            = (none, (resolve s requestId approved rb reason now).2))) := by
  refine ⟨?_, ?_, ?_⟩
  · intro h
    simp only [resolve, h]
  · intro a hf hnp
    simp only [resolve, hf]
    rw [if_pos hnp]
  · intro a hf hp
    have hstep : resolve s requestId approved rb reason now
        = (some (resolvedRecord a approved rb reason now),
          { queue := s.queue.filter (fun b => b.id ≠ requestId)
            history := addToHistory s.history
              (resolvedRecord a approved rb reason now)
            resolvedEvents := s.resolvedEvents
              ++ [resolvedRecord a approved rb reason now] }) := by
      simp only [resolve, hf]
      rw [if_neg (fun h => h hp)]
    refine ⟨by rw [hstep], rfl, rfl, rfl, rfl, rfl, rfl, ?_, ?_, ?_, ?_, ?_, ?_⟩
    · intro b hb
      rw [hstep] at hb
      have hb' := List.mem_filter.mp hb
      exact ⟨hb'.1, by simpa using hb'.2⟩
    · intro b hb hbid
      rw [hstep]
      exact List.mem_filter.mpr ⟨hb, by simpa using hbid⟩
    · rw [hstep]
      exact addToHistory_head _ _
    · intro h hh
      rw [hstep] at hh
      exact addToHistory_mem _ _ h hh
    · rw [hstep]
    · intro approved2 rb2 reason2 now2
      have hfind2 : ((resolve s requestId approved rb reason now).2).queue.find?
          (fun b => b.id = requestId) = none := by
        rw [hstep]
        refine List.find?_eq_none.mpr ?_
        intro x hx
        have hx2 := (List.mem_filter.mp hx).2
        simpa using hx2
      revert hfind2
      generalize (resolve s requestId approved rb reason now).2 = s2
      intro hfind2
      simp only [resolve, hfind2]

theorem c3_resolve_spec_witness :
    (resolve
        { queue := [{ id := "r1", agentId := "w1", category := "spend",
                      description := "d", amount := some 5,
                      currency := some "USD", createdAt := 0, expiresAt := 100,
                      state := AState.pending, respondedBy := none,
                      reason := none, respondedAt := none }]
          history := []
          resolvedEvents := [] }
        "r1" true "user" none 5).1
      = some (resolvedRecord
          { id := "r1", agentId := "w1", category := "spend",
            description := "d", amount := some 5, currency := some "USD",
            createdAt := 0, expiresAt := 100, state := AState.pending,
            respondedBy := none, reason := none, respondedAt := none }
          true "user" none 5) :=
  ((c3_resolve_spec
      { queue := [{ id := "r1", agentId := "w1", category := "spend",
                    description := "d", amount := some 5,
                    currency := some "USD", createdAt := 0, expiresAt := 100,
                    state := AState.pending, respondedBy := none,
                    reason := none, respondedAt := none }]
        history := []
        resolvedEvents := [] }
      "r1" "user" true none 5).2.2
    { id := "r1", agentId := "w1", category := "spend", description := "d",
      amount := some 5, currency := some "USD", createdAt := 0,
      expiresAt := 100, state := AState.pending, respondedBy := none,
      reason := none, respondedAt := none }
    (by decide) (by decide)).1

/-- C4: no approval leaves a terminal state under any ApprovalManager
operation — the expiry scan leaves every non-pending (and every not-yet-due
pending) queue entry untouched, `resolve` refuses non-pending entries, and
neither `resolve` nor `addRequest` ever produces an expired record — and a
record reaches state expired only when the scan's wall clock has passed its
`expiresAt`; the expired entry leaves the queue and enters the bounded
history. -/
theorem c4_terminal_finality (s : AMState) (now now2 : Int)
    (requestId rb agentId : String) (approved : Bool) (reason : Option String)
    (r : ApprovalReq)
    (hpair : s.queue.Pairwise (fun a b => a.id ≠ b.id)) :
    (∀ a ∈ s.queue, ¬(a.state = AState.pending ∧ a.expiresAt < now) →
      a ∈ (expireStale s now).queue) ∧
    (∀ a ∈ s.queue, a.state ≠ AState.pending →
      a ∈ (expireStale s now).queue) ∧
    (∀ b ∈ (expireStale s now).queue, b ∈ s.queue) ∧
    (∀ h ∈ (expireStale s now).history, h ∈ s.history ∨
      ∃ b, b ∈ s.queue ∧ b.state = AState.pending ∧ b.expiresAt < now ∧
        h = { b with state := AState.expired }) ∧
    (∀ h ∈ (expireStale s now).history, h ∉ s.history →
      h.state = AState.expired → h.expiresAt < now) ∧
    (∀ a ∈ s.queue, a.state = AState.pending → a.expiresAt < now →
      ∀ b ∈ (expireStale s now).queue, b.id ≠ a.id) ∧
    (∀ a, s.queue.find? (fun b => b.id = requestId) = some a →
      a.state ≠ AState.pending →
      resolve s requestId approved rb reason now2 = (none, s)) ∧
    (∀ b ∈ (resolve s requestId approved rb reason now2).2.queue,
      b ∈ s.queue) ∧
    (∀ h ∈ (resolve s requestId approved rb reason now2).2.history,
      h ∈ s.history ∨ h.state = AState.approved ∨ h.state = AState.denied) ∧
    ((addRequest s agentId r now2).1.state = AState.pending) ∧
    (∀ b ∈ (addRequest s agentId r now2).2.queue,
      b ∈ s.queue ∨ b.state = AState.pending) ∧
    ((addRequest s agentId r now2).2.history = s.history) := by
  have key : ∀ a ∈ s.queue, ¬(a.state = AState.pending ∧ a.expiresAt < now) →
      a ∈ (expireStale s now).queue := by
    intro a ha hna
    refine foldl_expire_preserves now s.queue s a ha hna ?_
    intro c hc
    by_cases hca : c = a
    · exact Or.inl hca
    · exact Or.inr
        (List.Pairwise.forall (fun x y h => Ne.symm h) hpair hc ha hca)
  have hprov : ∀ h ∈ (expireStale s now).history, h ∈ s.history ∨
      ∃ b, b ∈ s.queue ∧ b.state = AState.pending ∧ b.expiresAt < now ∧
        h = { b with state := AState.expired } := by
    intro h hh
    exact foldl_expire_hist_prov s now s.queue s (fun _ hc => hc)
      (fun _ hx => Or.inl hx) h hh
  refine ⟨key, ?_, ?_, hprov, ?_, ?_, ?_, ?_, ?_, rfl, ?_, rfl⟩
  · intro a ha hnp
    exact key a ha (fun hcon => hnp hcon.1)
  · intro b hb
    exact foldl_expire_queue_sub now s.queue s b hb
  · intro h hh hnot hexp
    rcases hprov h hh with h1 | ⟨b, _, _, hbd, rfl⟩
    · exact absurd h1 hnot
    · exact hbd
  · intro a ha hp hd b hb
    exact foldl_expire_removes now s.queue s a ha hp hd b hb
  · intro a hf hnp
    simp only [resolve, hf]
    rw [if_pos hnp]
  · intro b hb
    rcases hfind : s.queue.find? (fun x => x.id = requestId) with _ | a
    · simp only [resolve, hfind] at hb
      exact hb
    · simp only [resolve, hfind] at hb
      by_cases hp : a.state ≠ AState.pending
      · rw [if_pos hp] at hb
        exact hb
      · rw [if_neg hp] at hb
        exact (List.mem_filter.mp hb).1
  · intro h hh
    rcases hfind : s.queue.find? (fun x => x.id = requestId) with _ | a
    · simp only [resolve, hfind] at hh
      exact Or.inl hh
    · simp only [resolve, hfind] at hh
      by_cases hp : a.state ≠ AState.pending
      · rw [if_pos hp] at hh
        exact Or.inl hh
      · rw [if_neg hp] at hh
        rcases addToHistory_mem _ _ h hh with rfl | hmem
        · right
          cases approved <;> simp [resolvedRecord]
        · exact Or.inl hmem
  · intro b hb
    simp only [addRequest, qSet] at hb
    split at hb
    · rcases List.mem_map.mp hb with ⟨c, hc, hceq⟩
      by_cases hcid : c.id = r.id
      · rw [if_pos hcid] at hceq
        right
        rw [← hceq]
      · rw [if_neg hcid] at hceq
        subst hceq
        exact Or.inl hc
    · rcases List.mem_append.mp hb with h1 | h1
      · exact Or.inl h1
      · right
        simp only [List.mem_singleton] at h1
        rw [h1]

theorem c4_terminal_finality_witness :
    ({ id := "r2", agentId := "w1", category := "action", description := "d",
        amount := none, currency := none, createdAt := 0, expiresAt := 100,
        state := AState.pending, respondedBy := none, reason := none,
        respondedAt := none } : Approval)
      ∈ (expireStale
          { queue := [{ id := "r2", agentId := "w1", category := "action",
                        description := "d", amount := none, currency := none,
                        createdAt := 0, expiresAt := 100,
                        state := AState.pending, respondedBy := none,
                        reason := none, respondedAt := none }]
            history := []
            resolvedEvents := [] }
          50).queue :=
  (c4_terminal_finality
      { queue := [{ id := "r2", agentId := "w1", category := "action",
                    description := "d", amount := none, currency := none,
                    createdAt := 0, expiresAt := 100, state := AState.pending,
                    respondedBy := none, reason := none, respondedAt := none }]
        history := []
        resolvedEvents := [] }
      50 0 "r2" "user" "w1" true none
      { id := "r2", category := "action", description := "d", amount := none,
        currency := none, expiresAt := 100 }
      (by decide)).1
    { id := "r2", agentId := "w1", category := "action", description := "d",
      amount := none, currency := none, createdAt := 0, expiresAt := 100,
      state := AState.pending, respondedBy := none, reason := none,
      respondedAt := none }
    (by decide) (by decide)

-- ─────────────────── helper lemmas: fleet ───────────────────

theorem recordActionRecord_totalSpend (r : AgentRecord) (a : ActionLogEntry) :
    (recordActionRecord r a).totalSpend = r.totalSpend + spendContrib a := by
  have hproj : (recordActionRecord r a).totalSpend
      = if a.category = "spend" ∧ jsTruthy (lookupDetail a.details "amount") then
          r.totalSpend + (jsToNumber (lookupDetail a.details "amount")).getD 0
        else r.totalSpend := rfl
  rw [hproj]
  unfold spendContrib
  by_cases h : a.category = "spend" ∧ jsTruthy (lookupDetail a.details "amount")
  · rw [if_pos h, if_pos h]
  · rw [if_neg h, if_neg h, add_zero]

theorem foldl_record_totalSpend (actions : List ActionLogEntry) :
    ∀ r : AgentRecord, (actions.foldl recordActionRecord r).totalSpend
      = r.totalSpend + (actions.map spendContrib).sum := by
  induction actions with
  | nil => intro r; simp
  | cons a l ih =>
      intro r
      rw [List.foldl_cons, ih, recordActionRecord_totalSpend, List.map_cons,
        List.sum_cons]
      ring

theorem foldl_record_totalActions (actions : List ActionLogEntry) :
    ∀ r : AgentRecord, (actions.foldl recordActionRecord r).totalActions
      = r.totalActions + actions.length := by
  induction actions with
  | nil => intro r; simp
  | cons a l ih =>
      intro r
      rw [List.foldl_cons, ih]
      have hproj : (recordActionRecord r a).totalActions
          = r.totalActions + 1 := rfl
      rw [hproj, List.length_cons]
      omega

/-- C5: the claim asserts `totalSpend` changes exactly for spend actions with
a NUMERIC `details.amount`. The code coerces with `Number(amount) || 0` after
a truthiness test, so a spend action whose amount is the STRING "5" — not a
number — raises `totalSpend` from 0 to 5, contradicting "no other category or
non-numeric amount changes it". -/
theorem c5_counterexample :
    lookupDetail sampleSpendAction.details "amount" = JsVal.str "5" ∧
    sampleRecord.totalSpend = 0 ∧
    (recordActionRecord sampleRecord sampleSpendAction).totalSpend = 5 := by
  refine ⟨rfl, rfl, ?_⟩
  have h2 : (recordActionRecord sampleRecord sampleSpendAction).totalSpend
      = sampleRecord.totalSpend + (1 * ((5 : Nat) : ℚ)) := rfl
  rw [h2]
  norm_num [sampleRecord]

/-- C5 (amended): `recordAction` prepends the entry newest-first with
capacity 200, increments `totalActions` by one, and adds
`Number(details.amount) || 0` to `totalSpend` exactly when the category is
"spend" and `details.amount` is truthy; hence `totalSpend` accumulates the
sum of these coerced contributions, which for actions whose amount is an
actual number equals the numeric amount itself. Unregistered agent ids are
untouched. -/
theorem c5_recordAction_spec (m : String → Option AgentRecord)
    (agentId : String) (r : AgentRecord) (a : ActionLogEntry)
    (actions : List ActionLogEntry) (q : ℚ) :
    ((recordActionRecord r a).recentActions.head? = some a) ∧
    ((recordActionRecord r a).recentActions.length ≤ MAX_RECENT_ACTIONS) ∧
    (∀ x ∈ (recordActionRecord r a).recentActions,
      x = a ∨ x ∈ r.recentActions) ∧
    ((recordActionRecord r a).totalActions = r.totalActions + 1) ∧
    (a.category = "spend" → jsTruthy (lookupDetail a.details "amount") = true →
      (recordActionRecord r a).totalSpend
        = r.totalSpend + (jsToNumber (lookupDetail a.details "amount")).getD 0) ∧
    (¬(a.category = "spend" ∧ jsTruthy (lookupDetail a.details "amount") = true) →
      (recordActionRecord r a).totalSpend = r.totalSpend) ∧
    (lookupDetail a.details "amount" = JsVal.num q →
      (recordActionRecord r a).totalSpend
        = r.totalSpend + (if a.category = "spend" then q else 0)) ∧
    ((actions.foldl recordActionRecord r).totalSpend
      = r.totalSpend + (actions.map spendContrib).sum) ∧
    ((actions.foldl recordActionRecord r).totalActions
      = r.totalActions + actions.length) ∧
    (m agentId = none → ∀ id, recordAction m agentId a id = m id) ∧
    (m agentId = some r →
      recordAction m agentId a agentId = some (recordActionRecord r a)) := by
  have hrecent : (recordActionRecord r a).recentActions
      = (a :: r.recentActions).take MAX_RECENT_ACTIONS := rfl
  refine ⟨?_, ?_, ?_, rfl, ?_, ?_, ?_, foldl_record_totalSpend actions r,
    foldl_record_totalActions actions r, ?_, ?_⟩
  · rw [hrecent]
    unfold MAX_RECENT_ACTIONS
    rw [show (200 : Nat) = 199 + 1 from rfl, List.take_succ_cons]
    rfl
  · rw [hrecent]
    exact List.length_take_le _ _
  · intro x hx
    rw [hrecent] at hx
    have hx' := List.take_subset _ _ hx
    simpa using hx'
  · intro h1 h2
    rw [recordActionRecord_totalSpend]
    unfold spendContrib
    rw [if_pos ⟨h1, h2⟩]
  · intro h
    rw [recordActionRecord_totalSpend]
    unfold spendContrib
    rw [if_neg h, add_zero]
  · intro hq
    rw [recordActionRecord_totalSpend]
    unfold spendContrib
    rw [hq]
    by_cases hc : a.category = "spend"
    · by_cases hq0 : q = 0
      · simp [hc, hq0, jsTruthy]
      · simp [hc, hq0, jsTruthy, jsToNumber]
    · simp [hc]
  · intro h id
    unfold recordAction
    by_cases hid : id = agentId
    · simp [hid, h]
    · simp [hid]
  · intro h
    simp [recordAction, h]

theorem c5_recordAction_spec_witness :
    recordAction (fun id => if id = "w1" then some sampleRecord else none)
        "w1" sampleSpendAction "w1"
      = some (recordActionRecord sampleRecord sampleSpendAction) :=
  (c5_recordAction_spec
      (fun id => if id = "w1" then some sampleRecord else none)
      "w1" sampleRecord sampleSpendAction [] 0).2.2.2.2.2.2.2.2.2.2
    (by decide)

-- ─────────────────── registerAgent (C6) ───────────────────

/-- C6: re-registering an existing agent id preserves `totalActions`,
`totalSpend`, the `recentActions` and `recentErrors` rings and `deployedAt`,
while replacing the manifest and instance; `deployedAt` is stamped with the
clock only on first registration, so registering the same id twice leaves the
counters, rings and `deployedAt` of the first record unchanged. -/
theorem c6_registerAgent_preserves (m : String → Option AgentRecord)
    (man man2 : MoltAgentManifest) (inst inst2 : Option VpsInstance)
    (t1 t2 : String) (r : AgentRecord) :
    (m man.identity.id = some r →
      ∃ r', registerAgent m man inst t1 man.identity.id = some r' ∧
        r'.totalActions = r.totalActions ∧ r'.totalSpend = r.totalSpend ∧
        r'.recentActions = r.recentActions ∧
        r'.recentErrors = r.recentErrors ∧
        r'.deployedAt = r.deployedAt ∧ r'.manifest = man ∧ r'.inst = inst) ∧
    (m man.identity.id = none →
      ∃ r', registerAgent m man inst t1 man.identity.id = some r' ∧
        r'.deployedAt = t1 ∧ r'.totalActions = 0 ∧ r'.totalSpend = 0 ∧
        r'.recentActions = [] ∧ r'.recentErrors = []) ∧
    (∀ b, b ≠ man.identity.id → registerAgent m man inst t1 b = m b) ∧
    (man2.identity.id = man.identity.id →
      ∃ r1 r2, registerAgent m man inst t1 man.identity.id = some r1 ∧
        registerAgent (registerAgent m man inst t1) man2 inst2 t2
            man.identity.id = some r2 ∧
        r2.totalActions = r1.totalActions ∧ r2.totalSpend = r1.totalSpend ∧
        r2.recentActions = r1.recentActions ∧
        r2.recentErrors = r1.recentErrors ∧
        r2.deployedAt = r1.deployedAt ∧
        r2.manifest = man2 ∧ r2.inst = inst2) := by
  have hgen : ∀ (m0 : String → Option AgentRecord) (manX : MoltAgentManifest)
      (instX : Option VpsInstance) (tX : String) (rX : AgentRecord),
      m0 manX.identity.id = some rX →
      ∃ r', registerAgent m0 manX instX tX manX.identity.id = some r' ∧
        r'.totalActions = rX.totalActions ∧ r'.totalSpend = rX.totalSpend ∧
        r'.recentActions = rX.recentActions ∧
        r'.recentErrors = rX.recentErrors ∧
        r'.deployedAt = rX.deployedAt ∧ r'.manifest = manX ∧
        r'.inst = instX := by
    intro m0 manX instX tX rX h
    refine ⟨{ manifest := manX
              inst := instX
              connection := .unknown
              remoteAddress := ""
              lastStatus := none
              deployedAt := rX.deployedAt
              lastHeartbeat := none
              uptimeSec := 0
              recentActions := rX.recentActions
              recentErrors := rX.recentErrors
              totalActions := rX.totalActions
              totalSpend := rX.totalSpend }, ?_, rfl, rfl, rfl, rfl, rfl, rfl,
      rfl⟩
    simp [registerAgent, h]
  refine ⟨?_, ?_, ?_, ?_⟩
  · intro h
    rcases hgen m man inst t1 r h with ⟨r', h1, h2, h3, h4, h5, h6, h7, h8⟩
    exact ⟨r', h1, h2, h3, h4, h5, h6, h7, h8⟩
  · intro h
    refine ⟨{ manifest := man
              inst := inst
              connection := .unknown
              remoteAddress := ""
              lastStatus := none
              deployedAt := t1
              lastHeartbeat := none
              uptimeSec := 0
              recentActions := []
              recentErrors := []
              totalActions := 0
              totalSpend := 0 }, ?_, rfl, rfl, rfl, rfl, rfl⟩
    simp [registerAgent, h]
  · intro b hb
    simp [registerAgent, hb]
  · intro heq
    obtain ⟨r1, hr1⟩ : ∃ x,
        registerAgent m man inst t1 man.identity.id = some x := by
      unfold registerAgent
      simp
    have hlook : registerAgent m man inst t1 man2.identity.id = some r1 := by
      rw [heq]
      exact hr1
    rcases hgen (registerAgent m man inst t1) man2 inst2 t2 r1 hlook with
      ⟨r2, h1, h2, h3, h4, h5, h6, h7, h8⟩
    rw [heq] at h1
    exact ⟨r1, r2, hr1, h1, h2, h3, h4, h5, h6, h7, h8⟩

theorem c6_registerAgent_preserves_witness :
    ((registerAgent (fun _ => none) sampleManifest none "t1")
        sampleManifest.identity.id).map (fun x => x.deployedAt)
      = some "t1" := by
  obtain ⟨r', hr, hd, _⟩ :=
    (c6_registerAgent_preserves (fun _ => none) sampleManifest sampleManifest
      none none "t1" "t2" sampleRecord).2.1 rfl
  rw [hr]
  simp [hd]

-- ─────────────────── bridge reconnect (C7) ───────────────────

/-- C7: after the n-th consecutive disconnect (n ≥ 1) the bridge schedules
the next connect after exactly `min(1000 · 2^(n-1), 60000)` ms (hence the
delay never exceeds that bound), the attempt counter resets to 0 on a
successful open, and once `close()` has run no reconnect is ever scheduled
and `connect()` is a no-op. -/
theorem c7_reconnect_backoff (s : BridgeState) (n : Nat) (hn : 1 ≤ n) :
    (s.closed = false → s.reconnectAttempt = n - 1 →
      (scheduleReconnect s).scheduled
          = s.scheduled ++ [min (1000 * 2 ^ (n - 1)) maxReconnectDelay] ∧
        (scheduleReconnect s).reconnectAttempt = n) ∧
    ((onOpen s).reconnectAttempt = 0) ∧
    (s.closed = true → scheduleReconnect s = s ∧ bridgeConnect s = (s, false)) ∧
    (scheduleReconnect (bridgeClose s) = bridgeClose s) ∧
    (bridgeConnect (bridgeClose s) = (bridgeClose s, false)) ∧
    ((onSocketClose (bridgeClose s)).scheduled = s.scheduled) := by
  refine ⟨?_, rfl, ?_, ?_, ?_, ?_⟩
  · intro hc hattempt
    constructor
    · unfold scheduleReconnect
      rw [if_neg (by simp [hc])]
      simp only [hattempt, Nat.add_sub_cancel]
    · unfold scheduleReconnect
      rw [if_neg (by simp [hc])]
      simp only [hattempt]
      omega
  · intro hc
    exact ⟨by simp [scheduleReconnect, hc], by simp [bridgeConnect, hc]⟩
  · simp [scheduleReconnect, bridgeClose]
  · simp [bridgeConnect, bridgeClose]
  · simp [onSocketClose, scheduleReconnect, bridgeClose]

theorem c7_reconnect_backoff_witness :
    (scheduleReconnect
        { ws := some WsReady.wsClosed, reconnectAttempt := 2, closed := false,
          scheduled := [], outbox := [], pendingApprovals := [] }).scheduled
        = [] ++ [min (1000 * 2 ^ (3 - 1)) maxReconnectDelay] ∧
      (scheduleReconnect
        { ws := some WsReady.wsClosed, reconnectAttempt := 2, closed := false,
          scheduled := [], outbox := [], pendingApprovals := [] }).reconnectAttempt
        = 3 :=
  (c7_reconnect_backoff
      { ws := some WsReady.wsClosed, reconnectAttempt := 2, closed := false,
        scheduled := [], outbox := [], pendingApprovals := [] }
      3 (by decide)).1 (by decide) (by decide)

-- ─────────────────── bridge send (C9) ───────────────────

/-- C9: when the socket is absent or not OPEN, `send` — and with it
`sendHeartbeat`, `sendStatus`, `sendAction`, and the `approval_request` frame
emitted by `requestApproval` — silently drops the frame: nothing is written
or queued for later delivery and the bridge state is unchanged (for
`requestApproval`, only its pending-handler registration happens; its frame
is lost just the same). -/
theorem c9_send_discards (s : BridgeState) (msg : AgentMessage)
    (agentId nowIso : String) (now startTime : Int) (st : AgentStatusReport)
    (a : ActionLogEntry) (r : ApprovalReq)
    (h : s.ws ≠ some WsReady.opened) :
    bridgeSend s msg = s ∧
    sendHeartbeat s agentId nowIso now startTime = s ∧
    sendStatus s agentId st = s ∧
    sendAction s agentId a = s ∧
    (requestApprovalStart s agentId r).outbox = s.outbox ∧
    (requestApprovalStart s agentId r).ws = s.ws ∧
    (requestApprovalStart s agentId r).scheduled = s.scheduled ∧
    (requestApprovalStart s agentId r).pendingApprovals
      = s.pendingApprovals ++ [r.id] := by
  have hb : ∀ m, bridgeSend s m = s := by
    intro m
    simp [bridgeSend, h]
  have hs' : requestApprovalStart s agentId r
      = { s with pendingApprovals := s.pendingApprovals ++ [r.id] } := by
    unfold requestApprovalStart
    simp [bridgeSend, h]
  exact ⟨hb msg, hb _, hb _, hb _, by rw [hs'], by rw [hs'], by rw [hs'],
    by rw [hs']⟩

theorem c9_send_discards_witness :
    bridgeSend
        { ws := none, reconnectAttempt := 0, closed := false, scheduled := [],
          outbox := [], pendingApprovals := [] }
        (AgentMessage.errorMsg "w1" "boom")
      = { ws := none, reconnectAttempt := 0, closed := false, scheduled := [],
          outbox := [], pendingApprovals := [] } :=
  (c9_send_discards
      { ws := none, reconnectAttempt := 0, closed := false, scheduled := [],
        outbox := [], pendingApprovals := [] }
      (AgentMessage.errorMsg "w1" "boom") "w1" "t" 0 0
      { state := "idle", activeTask := none, channelsConnected := [],
        uptimeSec := 0, memoryUsageMb := 0, cpuPercent := 0, actionsToday := 0,
        spendToday := 0, goalProgress := [] }
      sampleSpendAction
      { id := "r1", category := "spend", description := "d", amount := none,
        currency := none, expiresAt := 0 }
      (by decide)).1

-- ─────────────────── dashboard delete (C10) ───────────────────

/-- C10: the authorized DELETE /dashboard/agents/:id route always answers
200 with `ok: true`, always removes the agent's fleet record, and reports the
destroy result — including a failed destroy such as "no instance indexed" —
only inside the 200 body, so the record is gone regardless of whether the VPS
was destroyed. -/
theorem c10_delete_route (fleet : String → Option AgentRecord)
    (instances : String → Option VpsInstance) (providerKnown : String → Bool)
    (outcome : DestroyResult) (agentId : String) :
    ((dashboardDeleteAgent true fleet instances providerKnown outcome
        agentId).1.status = 200) ∧
    ((dashboardDeleteAgent true fleet instances providerKnown outcome
        agentId).1.ok = true) ∧
    ((dashboardDeleteAgent true fleet instances providerKnown outcome
        agentId).2.1 agentId = none) ∧
    ((dashboardDeleteAgent true fleet instances providerKnown outcome
        agentId).1.destroyResult
      = some (provisionerDestroy instances providerKnown outcome agentId).1) ∧
    (instances agentId = none →
      (dashboardDeleteAgent true fleet instances providerKnown outcome
          agentId).1.destroyResult
        = some { success := false, error := some ("No instance found for agent " ++ agentId) }) ∧
    (outcome.success = false →
      (dashboardDeleteAgent true fleet instances providerKnown outcome
          agentId).2.1 agentId = none) := by
  refine ⟨rfl, rfl, ?_, rfl, ?_, ?_⟩
  · simp [dashboardDeleteAgent, removeAgent]
  · intro h
    simp [dashboardDeleteAgent, provisionerDestroy, h]
  · intro _
    simp [dashboardDeleteAgent, removeAgent]

theorem c10_delete_route_witness :
    ((dashboardDeleteAgent true
        (fun id => if id = "w1" then some sampleRecord else none)
        (fun _ => none) (fun _ => false)
        { success := false, error := none } "w1").1.status = 200) ∧
      ((dashboardDeleteAgent true
        (fun id => if id = "w1" then some sampleRecord else none)
        (fun _ => none) (fun _ => false)
        { success := false, error := none } "w1").2.1 "w1" = none) ∧
      ((dashboardDeleteAgent true
        (fun id => if id = "w1" then some sampleRecord else none)
        (fun _ => none) (fun _ => false)
        { success := false, error := none } "w1").1.destroyResult
        = some { success := false, error := some ("No instance found for agent " ++ "w1") }) :=
  ⟨(c10_delete_route
      (fun id => if id = "w1" then some sampleRecord else none)
      (fun _ => none) (fun _ => false)
      { success := false, error := none } "w1").1,
    (c10_delete_route
      (fun id => if id = "w1" then some sampleRecord else none)
      (fun _ => none) (fun _ => false)
      { success := false, error := none } "w1").2.2.1,
    (c10_delete_route
      (fun id => if id = "w1" then some sampleRecord else none)
      (fun _ => none) (fun _ => false)
      { success := false, error := none } "w1").2.2.2.2.1 rfl⟩

-- ─────────────────── cloud-init (C8) ───────────────────

theorem generateCloudInit_inj_clock (m : MoltAgentManifest) (t1 t2 : String)
    (h : generateCloudInit m t1 = generateCloudInit m t2) : t1 = t2 := by
  have h2 := congrArg String.data h
  simp only [generateCloudInit, String.data_append] at h2
  have h3 := List.append_cancel_right h2
  have h4 := List.append_cancel_left h3
  cases t1
  cases t2
  exact congrArg String.mk h4

/-- C8: the claim asserts `generateCloudInit` is a pure function of the
manifest alone. Line 71 of cloud-init.ts splices `new Date().toISOString()`
into the script's "Generated:" comment, so two calls with the identical
manifest at different clock readings return different text. -/
theorem c8_counterexample :
    generateCloudInit sampleManifest "2026-01-01T00:00:00.000Z"
      ≠ generateCloudInit sampleManifest "2026-01-01T00:00:01.000Z" := by
  intro h
  have := generateCloudInit_inj_clock sampleManifest _ _ h
  exact absurd this (by decide)

/-- C8 (amended): `generateCloudInit` is a pure, deterministic function of
the manifest and the wall-clock reading taken at generation time: the output
is a manifest-determined prefix, then the ISO timestamp (in the "Generated:"
comment), then a manifest-determined suffix — so two calls with the same
manifest return identical text exactly when their clock readings coincide,
and every other character of the script depends on the manifest alone. -/
theorem c8_cloudinit_deterministic (m : MoltAgentManifest) (t t1 t2 : String) :
    (generateCloudInit m t = cloudInitPre m ++ t ++ cloudInitRest m) ∧
    (generateCloudInit m t1 = generateCloudInit m t2 ↔ t1 = t2) := by
  refine ⟨rfl, ?_, ?_⟩
  · exact generateCloudInit_inj_clock m t1 t2
  · intro h
    rw [h]

theorem c8_cloudinit_deterministic_witness :
    generateCloudInit sampleManifest "2026-01-01T00:00:00.000Z"
      = cloudInitPre sampleManifest ++ "2026-01-01T00:00:00.000Z"
          ++ cloudInitRest sampleManifest :=
  (c8_cloudinit_deterministic sampleManifest "2026-01-01T00:00:00.000Z"
    "2026-01-01T00:00:00.000Z" "2026-01-01T00:00:00.000Z").1
